import Mathlib

/-!
Verification of the doubao-batch-translator core: a shallow embedding of
`src/core/models.rs`, `src/core/token_tracker.rs`, `src/core/config.rs` and
`src/core/client.rs`, followed by theorems about the orchestration logic.

The asynchronous effects of the original (tokio `sleep`, the HTTP wire call,
the `RwLock`/`Mutex` around shared state) are made explicit:
* shared mutable state (`TokenUsage`, the current-model cell) is passed and
  returned explicitly;
* the wall clock (`chrono::Utc::now()`) is a `Timestamp` parameter;
* the wire (`send_request`'s HTTP exchange) is a function parameter giving
  the outcome of each attempt, and the response-classification logic of
  `send_request` is embedded separately as `classify_response`;
* control flow that the original only logs (which models were attempted, how
  many attempts and which backoff delays occurred, whether the semaphore
  permit was reached) is recorded in trace structures.
-/

/-- UTC instant, split into its calendar date (days since an epoch) and the
time of day; `chrono::DateTime<Utc>` as far as the core inspects it
(`date_naive` comparison only). -/
structure Timestamp where
  day : Int
  msOfDay : Nat
deriving DecidableEq, Repr

/-- `DateTime::date_naive()`: the calendar date in UTC. -/
def Timestamp.date_naive (t : Timestamp) : Int :=
  t.day

/-- `LaneType` from `src/core/models.rs`. -/
inductive LaneType where
  | Slow
  | Fast
deriving DecidableEq, Repr, BEq

/-- `impl fmt::Display for LaneType` from `src/core/models.rs`. -/
def LaneType.display : LaneType → String
  | .Slow => "slow"
  | .Fast => "fast"

/-- `Model` from `src/core/models.rs`. -/
structure Model where
  id : String
  lane : LaneType
  rpm : Nat
  max_concurrent : Nat
  enabled : Bool
deriving DecidableEq, Repr

/-- `Model::is_compatible` from `src/core/models.rs`. -/
def Model.is_compatible (m : Model) (lane : LaneType) : Bool :=
  m.lane == lane && m.enabled

/-- `TranslationRequest` from `src/core/models.rs`. -/
structure TranslationRequest where
  text : String
  source_lang : Option String
  target_lang : String
  context : Option String
deriving DecidableEq, Repr

/-- `TranslationResult` from `src/core/models.rs`. -/
structure TranslationResult where
  translation : String
  detected_source_lang : Option String
  tokens_used : Nat
  model_used : String
  request_id : Option String
deriving DecidableEq, Repr

/-- `TranslationError` from `src/core/errors.rs` (the variants constructed by
the core; the `#[from]` wrapper variants carry their message strings). -/
inductive TranslationError where
  | ApiError (status : Nat) (message : String)
  | RateLimitError (retry_after : Option Nat)
  | QuotaExceededError
  | NetworkError (message : String)
  | InvalidResponseError (message : String)
  | TimeoutError
  | FileError (path : String) (message : String)
  | ConfigError (message : String)
  | InvalidFormat (format : String)
  | MissingField (field : String)
  | InternalError (message : String)
deriving DecidableEq, Repr

/-- `TokenUsage` from `src/core/models.rs`. `usize` counters are `Nat`:
`used_today += tokens` is guarded by `can_use`, so it never overflows, and
`remaining` uses `saturating_sub`, which is `Nat` subtraction. -/
structure TokenUsage where
  daily_limit : Nat
  used_today : Nat
  last_reset : Timestamp
deriving DecidableEq, Repr

/-- `TokenUsage::new` (`chrono::Utc::now()` is the explicit `now`). -/
def TokenUsage.new (daily_limit : Nat) (now : Timestamp) : TokenUsage :=
  { daily_limit := daily_limit, used_today := 0, last_reset := now }

/-- `TokenUsage::remaining`: `daily_limit.saturating_sub(used_today)`. -/
def TokenUsage.remaining (u : TokenUsage) : Nat :=
  u.daily_limit - u.used_today

/-- `TokenUsage::can_use`: `remaining() >= tokens`. -/
def TokenUsage.can_use (u : TokenUsage) (tokens : Nat) : Bool :=
  u.remaining ≥ tokens

/-- `TokenUsage::use_tokens`. The `&mut self` receiver is modelled by
returning the new state next to the `anyhow::Result<()>`; the early `Err`
return leaves the state as it was. -/
def TokenUsage.use_tokens (u : TokenUsage) (tokens : Nat) :
    TokenUsage × Except String Unit :=
  if !(u.can_use tokens) then
    (u, .error "Token quota exceeded")
  else
    ({ u with used_today := u.used_today + tokens }, .ok ())

/-- `TokenUsage::reset_if_needed`: reset iff the UTC calendar date changed. -/
def TokenUsage.reset_if_needed (u : TokenUsage) (now : Timestamp) : TokenUsage :=
  if now.date_naive ≠ u.last_reset.date_naive then
    { u with used_today := 0, last_reset := now }
  else
    u

/-!
`TokenTracker` from `src/core/token_tracker.rs` wraps a `TokenUsage` in an
`Arc<RwLock<_>>`; each method takes the write lock, so sequentially it is a
state transformer on the `TokenUsage`.
-/

namespace TokenTracker

/-- `TokenTracker::can_use`: reset-if-needed (a mutation, even on a query),
then query. Returns the new state and the answer. -/
def can_use (u : TokenUsage) (tokens : Nat) (now : Timestamp) :
    TokenUsage × Bool :=
  let u2 := u.reset_if_needed now
  (u2, u2.can_use tokens)

/-- `TokenTracker::use_tokens`: reset-if-needed, then check-and-consume. -/
def use_tokens (u : TokenUsage) (tokens : Nat) (now : Timestamp) :
    TokenUsage × Except String Unit :=
  let u2 := u.reset_if_needed now
  u2.use_tokens tokens

/-- `TokenTracker::get_stats`: snapshot under the read lock. -/
def get_stats (u : TokenUsage) : TokenUsage :=
  u

/-- `TokenTracker::remaining`. -/
def remaining (u : TokenUsage) : Nat :=
  u.remaining

/-- `TokenTracker::reset`: zero the counter and restamp, unconditionally. -/
def reset (u : TokenUsage) (now : Timestamp) : TokenUsage :=
  { u with used_today := 0, last_reset := now }

end TokenTracker

/-- `TranslatorConfig` from `src/core/config.rs`. `max_rps: f64` is used only
by `validate`, which no theorem here inspects, so it is left out of the
embedding rather than mismodelling a float. -/
structure TranslatorConfig where
  api_key : String
  api_endpoint : String
  models : List Model
  max_concurrent : Nat
  max_retries : Nat
  retry_delay_ms : Nat
  max_input_tokens : Nat
  timeout_ms : Nat
deriving DecidableEq, Repr

/-- `TranslatorConfig::get_models_by_lane`: enabled models of the lane, in
configured order. -/
def TranslatorConfig.get_models_by_lane (c : TranslatorConfig) (lane : LaneType) :
    List Model :=
  c.models.filter (fun m => m.lane == lane && m.enabled)

/-- `TranslatorConfig::get_enabled_models`. -/
def TranslatorConfig.get_enabled_models (c : TranslatorConfig) : List Model :=
  c.models.filter (fun m => m.enabled)

/-- `TranslatorConfig::find_model`. -/
def TranslatorConfig.find_model (c : TranslatorConfig) (id : String) : Option Model :=
  c.models.find? (fun m => m.id == id)

/-!
A minimal `serde_json::Value`, covering the shapes `send_request` inspects.
Numbers are integers (`as_u64` only ever answers `some` on an integral value
that fits in a `u64`; the float case never yields a token count here).
-/

/-- JSON values as `send_request` consumes them. -/
inductive Json where
  | null
  | str (s : String)
  | num (n : Int)
  | bool (b : Bool)
  | arr (elems : List Json)
  | obj (fields : List (String × Json))

/-- `serde_json` `Value` indexing by key: `Null` when the value is not an
object or the key is absent. -/
def Json.getField : Json → String → Json
  | .obj fields, k =>
    match fields.find? (fun p => p.1 == k) with
    | some p => p.2
    | none => .null
  | _, _ => .null

/-- `serde_json` `Value::get(i)`: `Some` only for an in-bounds array index. -/
def Json.getIdx : Json → Nat → Option Json
  | .arr elems, i => elems.get? i
  | _, _ => none

/-- `serde_json` `Value::as_str`. -/
def Json.as_str : Json → Option String
  | .str s => some s
  | _ => none

/-- `serde_json` `Value::as_u64`: an integer in `[0, 2^64)`. -/
def Json.as_u64 : Json → Option Nat
  | .num n => if 0 ≤ n ∧ n < 2 ^ 64 then some n.toNat else none
  | _ => none

/-- `str::contains` on the body text (`error_text.contains("quota")` etc.). -/
def charsContain (needle : List Char) : List Char → Bool
  | [] => needle.isEmpty
  | c :: rest => needle.isPrefixOf (c :: rest) || charsContain needle rest

/-- String containment, as `str::contains` with a string pattern. -/
def strContains (hay needle : String) : Bool :=
  charsContain needle.toList hay.toList

namespace AsyncTranslator

/-- The translation-text lookup of `send_request`:
`json["output"]["choices"].get(0).and_then(|c| c["message"]["content"].as_str())`. -/
def extractTranslation (json : Json) : Option String :=
  (((json.getField "output").getField "choices").getIdx 0).bind
    (fun c => ((c.getField "message").getField "content").as_str)

/-- The detected-source-language lookup of `send_request`. -/
def extractDetected (json : Json) : Option String :=
  (((json.getField "output").getField "choices").getIdx 0).bind
    (fun c => ((c.getField "message").getField "detected_source_language").as_str)

/-- The token-count lookup of `send_request`:
`json["usage"]["total_tokens"].as_u64().unwrap_or(0)`. -/
def extractTokens (json : Json) : Nat :=
  (((json.getField "usage").getField "total_tokens").as_u64).getD 0

/-- The response-classification logic of `send_request` (client.rs lines
239-297), after the wire exchange itself: `status` is the HTTP status,
`body` the result of parsing the body as JSON (`response.json()`, used on
the 2xx path), `bodyText` the raw body (`response.text()`, used on the
non-2xx path). -/
def classify_response (modelId : String) (status : Nat)
    (body : Except String Json) (bodyText : String) :
    Except TranslationError TranslationResult :=
  if 200 ≤ status ∧ status ≤ 299 then
    match body with
    | .error msg => .error (.InvalidResponseError msg)
    | .ok json =>
      match extractTranslation json with
      | none => .error (.InvalidResponseError "No translation in response")
      | some translation =>
        .ok { translation := translation
              detected_source_lang := extractDetected json
              tokens_used := extractTokens json
              model_used := modelId
              request_id := (json.getField "id").as_str }
  else if status == 429 then
    .error (.RateLimitError none)
  else if strContains bodyText "quota" || strContains bodyText "limit" then
    .error .QuotaExceededError
  else
    .error (.ApiError status bodyText)

deriving instance DecidableEq for Except

/-- Outcome of one run of `translate_with_model`: how many times
`send_request` ran, which backoff delays were slept (in order), and the
returned value. -/
structure RetryTrace where
  attempts : Nat
  delays : List Nat
  result : Except TranslationError TranslationResult
deriving DecidableEq, Repr

/-- The backoff before retry attempt `attempt ≥ 1`:
`retry_delay_ms * 2_u64.pow(attempt - 1)` in wrapping `u64` arithmetic. -/
def backoffDelay (cfg : TranslatorConfig) (attempt : Nat) : Nat :=
  (cfg.retry_delay_ms * 2 ^ (attempt - 1)) % 2 ^ 64

/-- The retry-abort test of `translate_with_model`: the `match` on the last
error breaks out of the loop exactly for `QuotaExceededError`
(`InvalidResponseError` hits `continue`, everything else the `_ => {}`
fall-through — both proceed to the next iteration). -/
def isQuotaExceeded : TranslationError → Bool
  | .QuotaExceededError => true
  | _ => false

/-- The `for attempt in 0..=max_retries` loop of `translate_with_model`,
with `fuel` the number of iterations left and `attempt` the current index.
The `lastError` argument models the `last_error` variable; the fuel-0 case is
the `Err(last_error.unwrap())` after the loop. -/
def retryGo (cfg : TranslatorConfig)
    (send : Nat → Except TranslationError TranslationResult) :
    Nat → Nat → TranslationError → RetryTrace
  | 0, _, lastError => { attempts := 0, delays := [], result := .error lastError }
  | fuel + 1, attempt, _ =>
    let ds : List Nat := if 0 < attempt then [backoffDelay cfg attempt] else []
    match send attempt with
    | .ok r => { attempts := 1, delays := ds, result := .ok r }
    | .error e =>
      if isQuotaExceeded e then
        { attempts := 1, delays := ds, result := .error e }
      else
        let rest := retryGo cfg send fuel (attempt + 1) e
        { attempts := rest.attempts + 1
          delays := ds ++ rest.delays
          result := rest.result }

/-- `translate_with_model` (client.rs lines 159-194): bounded retry with
exponential backoff. `send attempt` is the outcome of the `send_request`
issued on that attempt. The initial `last_error` is `None` in the source;
the loop body always runs at least once (fuel `max_retries + 1 ≥ 1`), so the
placeholder below is unreachable, like the `unwrap` of a `None` there. -/
def translate_with_model (cfg : TranslatorConfig)
    (send : Nat → Except TranslationError TranslationResult) : RetryTrace :=
  retryGo cfg send (cfg.max_retries + 1) 0 (.InternalError "unreachable")

/-- Outcome of one run of `translate_with_lane`: the per-model retry traces
in attempt order (keyed by model id) and the returned value. -/
structure LaneTrace where
  modelTrys : List (String × RetryTrace)
  result : Except TranslationError TranslationResult
deriving DecidableEq, Repr

/-- The `for model in models` loop of `translate_with_lane`: first success
wins, any failure is logged and the loop continues; exhaustion yields the
`ConfigError` "all models failed". `send m attempt` is the outcome of the
`send_request` for model `m` on retry attempt `attempt`. -/
def laneGo (cfg : TranslatorConfig)
    (send : Model → Nat → Except TranslationError TranslationResult)
    (lane : LaneType) : List Model → LaneTrace
  | [] =>
    { modelTrys := []
      result := .error (.ConfigError ("All models in lane " ++ lane.display ++ " failed")) }
  | m :: rest =>
    let t := translate_with_model cfg (send m)
    match t.result with
    | .ok r => { modelTrys := [(m.id, t)], result := .ok r }
    | .error _ =>
      let later := laneGo cfg send lane rest
      { modelTrys := (m.id, t) :: later.modelTrys, result := later.result }

/-- `translate_with_lane` (client.rs lines 129-156). -/
def translate_with_lane (cfg : TranslatorConfig)
    (send : Model → Nat → Except TranslationError TranslationResult)
    (lane : LaneType) : LaneTrace :=
  let models := cfg.get_models_by_lane lane
  if models.isEmpty then
    { modelTrys := []
      result := .error (.ConfigError ("No models available for lane: " ++ lane.display)) }
  else
    laneGo cfg send lane models

/-- Wire calls issued while running one lane: every retry attempt of every
tried model is one `send_request`. -/
def LaneTrace.wireCalls (t : LaneTrace) : Nat :=
  (t.modelTrys.map (fun p => p.2.attempts)).sum

/-- Outcome of one `translate` call: wire calls issued, whether the
semaphore permit was reached, the lanes attempted (in order, with their
traces), the final quota state, the final current-model cell, and the
returned value. -/
structure TranslateTrace where
  wireCalls : Nat
  permitAcquired : Bool
  laneTraces : List (LaneType × LaneTrace)
  finalUsage : TokenUsage
  currentModel : String
  result : Except TranslationError TranslationResult
deriving DecidableEq, Repr

/-- `translate` (client.rs lines 61-126). `usage` is the token tracker's
state, `currentModel` the current-model cell, `now` the wall clock for this
call, `send m attempt` the wire outcome for model `m` on attempt `attempt`.
A `use_tokens` failure after a successful translation is logged and
swallowed in the source; here the state it returns is kept either way. -/
def translate (cfg : TranslatorConfig) (usage : TokenUsage)
    (currentModel : String) (now : Timestamp)
    (send : Model → Nat → Except TranslationError TranslationResult)
    (req : TranslationRequest) : TranslateTrace :=
  let estimated_tokens := req.text.utf8ByteSize / 4
  let chk := TokenTracker.can_use usage estimated_tokens now
  if !chk.2 then
    { wireCalls := 0, permitAcquired := false, laneTraces := []
      finalUsage := chk.1, currentModel := currentModel
      result := .error .QuotaExceededError }
  else
    let slow := translate_with_lane cfg send LaneType.Slow
    match slow.result with
    | .ok r =>
      let tk := TokenTracker.use_tokens chk.1 r.tokens_used now
      { wireCalls := slow.wireCalls, permitAcquired := true
        laneTraces := [(LaneType.Slow, slow)]
        finalUsage := tk.1, currentModel := r.model_used
        result := .ok r }
    | .error e =>
      let fast := translate_with_lane cfg send LaneType.Fast
      match fast.result with
      | .ok r =>
        let tk := TokenTracker.use_tokens chk.1 r.tokens_used now
        { wireCalls := slow.wireCalls + fast.wireCalls, permitAcquired := true
          laneTraces := [(LaneType.Slow, slow), (LaneType.Fast, fast)]
          finalUsage := tk.1, currentModel := r.model_used
          result := .ok r }
      | .error _ =>
        { wireCalls := slow.wireCalls + fast.wireCalls, permitAcquired := true
          laneTraces := [(LaneType.Slow, slow), (LaneType.Fast, fast)]
          finalUsage := chk.1, currentModel := currentModel
          result := .error e }

end AsyncTranslator

/-!
## Theorems
-/

/-- C4: for every `TokenUsage` state (after reset-if-needed) and every token
count `t`, `use_tokens t` increments `used_today` by exactly `t` iff
`remaining() ≥ t`; otherwise it returns a quota-exceeded error and leaves
`used_today` unchanged. -/
theorem c4_use_tokens_spec (u : TokenUsage) (t : Nat) (now : Timestamp) :
    ((u.reset_if_needed now).remaining ≥ t →
      TokenTracker.use_tokens u t now =
        ({ u.reset_if_needed now with
             used_today := (u.reset_if_needed now).used_today + t }, .ok ())) ∧
    ((u.reset_if_needed now).remaining < t →
      TokenTracker.use_tokens u t now =
        (u.reset_if_needed now, .error "Token quota exceeded")) := by
  constructor
  · intro h
    simp [TokenTracker.use_tokens, TokenUsage.use_tokens, TokenUsage.can_use, h]
  · intro h
    simp [TokenTracker.use_tokens, TokenUsage.use_tokens, TokenUsage.can_use,
      Nat.not_le.mpr h]

/-- Witness for C4 at a concrete state: limit 100, 40 used, same-day clock. -/
theorem c4_use_tokens_spec_witness :
    TokenTracker.use_tokens ⟨100, 40, ⟨5, 0⟩⟩ 60 ⟨5, 100⟩ =
      (⟨100, 100, ⟨5, 0⟩⟩, .ok ()) ∧
    TokenTracker.use_tokens ⟨100, 40, ⟨5, 0⟩⟩ 61 ⟨5, 100⟩ =
      (⟨100, 40, ⟨5, 0⟩⟩, .error "Token quota exceeded") := by
  constructor
  · exact (c4_use_tokens_spec ⟨100, 40, ⟨5, 0⟩⟩ 60 ⟨5, 100⟩).1 (by decide)
  · exact (c4_use_tokens_spec ⟨100, 40, ⟨5, 0⟩⟩ 61 ⟨5, 100⟩).2 (by decide)

/-- C5: `used_today ≤ daily_limit` holds for a fresh `TokenUsage` and is
preserved by `can_use`, `use_tokens`, `reset_if_needed` and `reset`; and
`remaining()` always equals `daily_limit - used_today`, saturating at 0. -/
theorem c5_quota_invariant :
    (∀ (L : Nat) (now : Timestamp),
      (TokenUsage.new L now).used_today ≤ (TokenUsage.new L now).daily_limit) ∧
    (∀ (u : TokenUsage) (t : Nat) (now : Timestamp),
      u.used_today ≤ u.daily_limit →
      (TokenTracker.can_use u t now).1.used_today ≤
        (TokenTracker.can_use u t now).1.daily_limit) ∧
    (∀ (u : TokenUsage) (t : Nat) (now : Timestamp),
      u.used_today ≤ u.daily_limit →
      (TokenTracker.use_tokens u t now).1.used_today ≤
        (TokenTracker.use_tokens u t now).1.daily_limit) ∧
    (∀ (u : TokenUsage) (now : Timestamp), u.used_today ≤ u.daily_limit →
      (u.reset_if_needed now).used_today ≤ (u.reset_if_needed now).daily_limit) ∧
    (∀ (u : TokenUsage) (now : Timestamp),
      (TokenTracker.reset u now).used_today ≤
        (TokenTracker.reset u now).daily_limit) ∧
    (∀ (u : TokenUsage), u.remaining = u.daily_limit - u.used_today) ∧
    (∀ (u : TokenUsage), u.daily_limit ≤ u.used_today → u.remaining = 0) := by
  have hreset : ∀ (u : TokenUsage) (now : Timestamp),
      u.used_today ≤ u.daily_limit →
      (u.reset_if_needed now).used_today ≤ (u.reset_if_needed now).daily_limit := by
    intro u now h
    unfold TokenUsage.reset_if_needed
    split <;> simp_all
  refine ⟨?_, ?_, ?_, hreset, ?_, ?_, ?_⟩
  · intro L now; simp [TokenUsage.new]
  · intro u t now h
    simp [TokenTracker.can_use]
    exact hreset u now h
  · intro u t now h
    have h2 := hreset u now h
    by_cases hc : (u.reset_if_needed now).can_use t = true
    · have ht : t ≤ (u.reset_if_needed now).remaining := by
        simpa [TokenUsage.can_use] using hc
      simp only [TokenUsage.remaining] at ht
      simp only [TokenTracker.use_tokens, TokenUsage.use_tokens, hc]
      simpa using by omega
    · simp only [TokenTracker.use_tokens, TokenUsage.use_tokens,
        Bool.not_eq_true] at hc ⊢
      simpa [hc] using h2
  · intro u now; simp [TokenTracker.reset]
  · intro u; rfl
  · intro u h; simp [TokenUsage.remaining, Nat.sub_eq_zero_of_le h]

/-- Witness for C5 at a concrete state with the invariant holding. -/
theorem c5_quota_invariant_witness :
    (⟨100, 40, ⟨5, 0⟩⟩ : TokenUsage).used_today ≤
      (⟨100, 40, ⟨5, 0⟩⟩ : TokenUsage).daily_limit ∧
    (TokenTracker.use_tokens ⟨100, 40, ⟨5, 0⟩⟩ 60 ⟨5, 100⟩).1.used_today ≤
      (TokenTracker.use_tokens ⟨100, 40, ⟨5, 0⟩⟩ 60 ⟨5, 100⟩).1.daily_limit := by
  exact ⟨by decide,
    c5_quota_invariant.2.2.1 ⟨100, 40, ⟨5, 0⟩⟩ 60 ⟨5, 100⟩ (by decide)⟩

/-- C6: the rollover check resets `used_today` to 0 and restamps
`last_reset` exactly when the UTC calendar date differs from `last_reset`'s
date (elapsed time within the same date never resets); and under a date
change, `can_use`/`use_tokens` evaluate their condition on the reset state
with `used_today = 0`. -/
theorem c6_day_rollover (u : TokenUsage) (t : Nat) (now : Timestamp) :
    (now.date_naive ≠ u.last_reset.date_naive →
      u.reset_if_needed now = { u with used_today := 0, last_reset := now }) ∧
    (now.date_naive = u.last_reset.date_naive → u.reset_if_needed now = u) ∧
    (now.date_naive ≠ u.last_reset.date_naive →
      (u.reset_if_needed now).used_today = 0 ∧
      TokenTracker.can_use u t now =
        ({ u with used_today := 0, last_reset := now },
         TokenUsage.can_use { u with used_today := 0, last_reset := now } t) ∧
      TokenTracker.use_tokens u t now =
        TokenUsage.use_tokens { u with used_today := 0, last_reset := now } t) := by
  refine ⟨?_, ?_, ?_⟩
  · intro h; simp [TokenUsage.reset_if_needed, h]
  · intro h; simp [TokenUsage.reset_if_needed, h]
  · intro h
    refine ⟨?_, ?_, ?_⟩ <;>
      simp [TokenUsage.reset_if_needed, TokenTracker.can_use,
        TokenTracker.use_tokens, h]

/-- Witness for C6: `last_reset` on day 4 with 70 tokens used, clock on
day 5 — the rollover zeroes the counter before the condition is checked. -/
theorem c6_day_rollover_witness :
    (⟨100, 70, ⟨4, 900⟩⟩ : TokenUsage).reset_if_needed ⟨5, 0⟩ =
      ⟨100, 0, ⟨5, 0⟩⟩ ∧
    (⟨100, 70, ⟨4, 0⟩⟩ : TokenUsage).reset_if_needed ⟨4, 999⟩ =
      ⟨100, 70, ⟨4, 0⟩⟩ ∧
    TokenTracker.can_use ⟨100, 70, ⟨4, 900⟩⟩ 90 ⟨5, 0⟩ =
      (⟨100, 0, ⟨5, 0⟩⟩, true) := by
  refine ⟨(c6_day_rollover ⟨100, 70, ⟨4, 900⟩⟩ 90 ⟨5, 0⟩).1 (by decide),
    (c6_day_rollover ⟨100, 70, ⟨4, 0⟩⟩ 0 ⟨4, 999⟩).2.1 (by decide), ?_⟩
  have := ((c6_day_rollover ⟨100, 70, ⟨4, 900⟩⟩ 90 ⟨5, 0⟩).2.2 (by decide)).2.1
  rw [this]; decide

/-!
Concrete fixtures used by witnesses and counterexamples.
-/

open AsyncTranslator

/-- A first Slow-lane model. -/
def modelA : Model := ⟨"model-a", .Slow, 5000, 80, true⟩

/-- A second Slow-lane model, listed after `modelA`. -/
def modelB : Model := ⟨"model-b", .Slow, 5000, 80, true⟩

/-- A Fast-lane model. -/
def modelF : Model := ⟨"fast-1", .Fast, 30000, 500, true⟩

/-- Config with two Slow-lane models and no retries. -/
def cfgC : TranslatorConfig :=
  ⟨"key", "https://endpoint", [modelA, modelB], 20, 0, 1000, 900, 30000⟩

/-- Config with one Slow-lane and one Fast-lane model, two retries. -/
def cfg2 : TranslatorConfig :=
  ⟨"key", "https://endpoint", [modelA, modelF], 20, 2, 1000, 900, 30000⟩

/-- The successful result the stub returns for `modelB`. -/
def resB : TranslationResult := ⟨"hola", none, 5, "model-b", none⟩

/-- The successful result the stub returns for the Fast lane. -/
def resF : TranslationResult := ⟨"你好", none, 12, "fast-1", none⟩

/-- Stub wire: `modelA` always fails with `QuotaExceededError`, every other
model succeeds with `resB`. -/
def sendC : Model → Nat → Except TranslationError TranslationResult :=
  fun m _ => if m.id == "model-a" then .error .QuotaExceededError else .ok resB

/-- Stub wire: the Slow lane always fails with a retryable `NetworkError`,
the Fast lane always succeeds with `resF`. -/
def send2 : Model → Nat → Except TranslationError TranslationResult :=
  fun m _ => if m.lane == LaneType.Slow then .error (.NetworkError "down") else .ok resF

/-- A quota state with plenty of budget, stamped day 0. -/
def usageC : TokenUsage := ⟨1000, 0, ⟨0, 0⟩⟩

/-- A request fixture. -/
def reqC : TranslationRequest := ⟨"Hello, world!", some "en", "zh", none⟩

/-- C7: if the quota precheck reports insufficient budget for the estimated
cost (`text` byte length / 4), `translate` fails immediately with
`QuotaExceeded`: no wire call, no permit acquisition, no lane attempted. -/
theorem c7_quota_precheck (cfg : TranslatorConfig) (usage : TokenUsage)
    (cur : String) (now : Timestamp)
    (send : Model → Nat → Except TranslationError TranslationResult)
    (req : TranslationRequest)
    (h : (TokenTracker.can_use usage (req.text.utf8ByteSize / 4) now).2 = false) :
    AsyncTranslator.translate cfg usage cur now send req =
      { wireCalls := 0, permitAcquired := false, laneTraces := []
        finalUsage := (TokenTracker.can_use usage (req.text.utf8ByteSize / 4) now).1
        currentModel := cur
        result := .error .QuotaExceededError } := by
  simp [AsyncTranslator.translate, h]

/-- Witness for C7: a pre-exhausted tracker (limit 10, all 10 used). -/
theorem c7_quota_precheck_witness :
    AsyncTranslator.translate cfgC ⟨10, 10, ⟨0, 0⟩⟩ "init" ⟨0, 0⟩ sendC reqC =
      { wireCalls := 0, permitAcquired := false, laneTraces := []
        finalUsage := ⟨10, 10, ⟨0, 0⟩⟩, currentModel := "init"
        result := .error .QuotaExceededError } := by
  have h := c7_quota_precheck cfgC ⟨10, 10, ⟨0, 0⟩⟩ "init" ⟨0, 0⟩ sendC reqC
    (by decide)
  rw [h]; decide

/-- C2: `translate` attempts the Slow lane first; the Fast lane is attempted
only if the Slow lane fails; a Fast-lane success is returned; and when both
lanes fail, the caller receives the Slow lane's error, not the Fast lane's. -/
theorem c2_lane_fallback (cfg : TranslatorConfig) (usage : TokenUsage)
    (cur : String) (now : Timestamp)
    (send : Model → Nat → Except TranslationError TranslationResult)
    (req : TranslationRequest)
    (hq : (TokenTracker.can_use usage (req.text.utf8ByteSize / 4) now).2 = true) :
    (∀ r, (translate_with_lane cfg send LaneType.Slow).result = .ok r →
      (AsyncTranslator.translate cfg usage cur now send req).laneTraces =
        [(LaneType.Slow, translate_with_lane cfg send LaneType.Slow)] ∧
      (AsyncTranslator.translate cfg usage cur now send req).result = .ok r) ∧
    (∀ e, (translate_with_lane cfg send LaneType.Slow).result = .error e →
      (AsyncTranslator.translate cfg usage cur now send req).laneTraces =
        [(LaneType.Slow, translate_with_lane cfg send LaneType.Slow),
         (LaneType.Fast, translate_with_lane cfg send LaneType.Fast)] ∧
      (∀ r, (translate_with_lane cfg send LaneType.Fast).result = .ok r →
        (AsyncTranslator.translate cfg usage cur now send req).result = .ok r) ∧
      (∀ e2, (translate_with_lane cfg send LaneType.Fast).result = .error e2 →
        (AsyncTranslator.translate cfg usage cur now send req).result = .error e)) := by
  constructor
  · intro r hr
    constructor <;> simp [AsyncTranslator.translate, hq, hr]
  · intro e he
    refine ⟨?_, ?_, ?_⟩
    · cases hf : (translate_with_lane cfg send LaneType.Fast).result with
      | error e2 => simp [AsyncTranslator.translate, hq, he, hf]
      | ok r => simp [AsyncTranslator.translate, hq, he, hf]
    · intro r hr
      simp [AsyncTranslator.translate, hq, he, hr]
    · intro e2 he2
      simp [AsyncTranslator.translate, hq, he, he2]

/-- Witness for C2: Slow lane always fails on the wire, Fast lane succeeds;
`translate` returns the Fast-lane result. -/
theorem c2_lane_fallback_witness :
    (AsyncTranslator.translate cfg2 usageC "init" ⟨0, 0⟩ send2 reqC).result = .ok resF := by
  exact ((c2_lane_fallback cfg2 usageC "init" ⟨0, 0⟩ send2 reqC (by decide)).2
    (.ConfigError "All models in lane slow failed") (by decide)).2.1 resF (by decide)

/-- One unfolding step of the retry loop. -/
theorem retryGo_succ (cfg : TranslatorConfig)
    (send : Nat → Except TranslationError TranslationResult)
    (fuel attempt : Nat) (e : TranslationError) :
    retryGo cfg send (fuel + 1) attempt e =
      (match send attempt with
       | .ok r =>
         { attempts := 1
           delays := if 0 < attempt then [backoffDelay cfg attempt] else []
           result := .ok r }
       | .error e2 =>
         if isQuotaExceeded e2 then
           { attempts := 1
             delays := if 0 < attempt then [backoffDelay cfg attempt] else []
             result := .error e2 }
         else
           { attempts := (retryGo cfg send fuel (attempt + 1) e2).attempts + 1
             delays := (if 0 < attempt then [backoffDelay cfg attempt] else []) ++
               (retryGo cfg send fuel (attempt + 1) e2).delays
             result := (retryGo cfg send fuel (attempt + 1) e2).result }) := by
  cases hs : send attempt with
  | ok r => simp only [retryGo, hs]
  | error e2 =>
    by_cases hq : isQuotaExceeded e2 = true <;>
      simp only [retryGo, hs, hq, if_true, if_false, Bool.false_eq_true]

/-- The retry loop executes the body at most `fuel` times. -/
theorem retryGo_attempts_le (cfg : TranslatorConfig)
    (send : Nat → Except TranslationError TranslationResult) :
    ∀ (fuel attempt : Nat) (e : TranslationError),
      (retryGo cfg send fuel attempt e).attempts ≤ fuel := by
  intro fuel
  induction fuel with
  | zero => intro a e; simp [retryGo]
  | succ n ih =>
    intro a e
    rw [retryGo_succ]
    cases hs : send a with
    | ok r => exact Nat.succ_le_succ (Nat.zero_le n)
    | error e2 =>
      by_cases hq : isQuotaExceeded e2 = true
      · simp [hq]
      · have h3 := ih (a + 1) e2
        simp [hq]
        omega

/-- The backoff delays slept are exactly one per executed attempt with a
positive index: attempt `attempt + i` (for `i` below the number of executed
attempts) is preceded by `backoffDelay` of its index iff that index is
positive. -/
theorem retryGo_delays (cfg : TranslatorConfig)
    (send : Nat → Except TranslationError TranslationResult) :
    ∀ (fuel attempt : Nat) (e : TranslationError),
      (retryGo cfg send fuel attempt e).delays =
        ((List.range' attempt (retryGo cfg send fuel attempt e).attempts).filter
          (fun n => decide (0 < n))).map (backoffDelay cfg) := by
  intro fuel
  induction fuel with
  | zero => intro a e; simp [retryGo]
  | succ n ih =>
    intro a e
    rw [retryGo_succ]
    cases hs : send a with
    | ok r =>
      by_cases ha : 0 < a <;> simp [ha, List.range'_succ]
    | error e2 =>
      by_cases hq : isQuotaExceeded e2 = true
      · by_cases ha : 0 < a <;> simp [hq, ha, List.range'_succ]
      · by_cases ha : 0 < a <;>
          simp [hq, ha, List.range'_succ, List.filter_cons, ih (a + 1) e2]

/-- When every attempt fails with a retryable error, the loop runs its full
budget and returns the last attempt's error. -/
theorem retryGo_allFail (cfg : TranslatorConfig)
    (send : Nat → Except TranslationError TranslationResult)
    (err : Nat → TranslationError)
    (hfail : ∀ n, send n = .error (err n))
    (hretr : ∀ n, isQuotaExceeded (err n) = false) :
    ∀ (fuel attempt : Nat) (e : TranslationError),
      (retryGo cfg send (fuel + 1) attempt e).attempts = fuel + 1 ∧
      (retryGo cfg send (fuel + 1) attempt e).result = .error (err (attempt + fuel)) := by
  intro fuel
  induction fuel with
  | zero =>
    intro a e
    rw [retryGo_succ, hfail a]
    simp [hretr a, retryGo]
  | succ n ih =>
    intro a e
    have h2 := ih (a + 1) (err a)
    rw [retryGo_succ, hfail a]
    have heq : a + 1 + n = a + (n + 1) := by omega
    simp only [hretr a, Bool.false_eq_true, if_false]
    exact ⟨by rw [h2.1], by rw [h2.2, heq]⟩

/-- `(range' 0 k).filter (0 < ·)` drops only the leading 0. -/
theorem range'_filter_pos (k : Nat) :
    (List.range' 0 k).filter (fun n => decide (0 < n)) = List.range' 1 (k - 1) := by
  cases k with
  | zero => simp
  | succ m =>
    rw [List.range'_succ, List.filter_cons]
    have hall : List.filter (fun n => decide (0 < n)) (List.range' (0 + 1) m) =
        List.range' (0 + 1) m :=
      List.filter_eq_self.mpr (by
        intro a ha
        have h := List.mem_range'_1.mp ha
        simp only [decide_eq_true_eq]
        omega)
    simp [hall]

/-- C3: the per-model retry loop makes at most `max_retries + 1` attempts;
attempt `n ≥ 1` is preceded by a backoff of `retry_delay_ms * 2^(n-1)` ms
(in wrapping `u64` arithmetic, exact whenever the product fits); with a wire
that always fails with a retryable error, exactly `max_retries + 1` attempts
occur, the backoffs are those of attempts `1..max_retries`, and the returned
error is the one observed on the last attempt. -/
theorem c3_retry_bound (cfg : TranslatorConfig)
    (send : Nat → Except TranslationError TranslationResult)
    (err : Nat → TranslationError)
    (hfail : ∀ n, send n = .error (err n))
    (hretr : ∀ n, isQuotaExceeded (err n) = false) :
    (∀ send2, (translate_with_model cfg send2).attempts ≤ cfg.max_retries + 1) ∧
    (∀ send2, (translate_with_model cfg send2).delays =
      (List.range' 1 ((translate_with_model cfg send2).attempts - 1)).map
        (backoffDelay cfg)) ∧
    (∀ n, cfg.retry_delay_ms * 2 ^ (n - 1) < 2 ^ 64 →
      backoffDelay cfg n = cfg.retry_delay_ms * 2 ^ (n - 1)) ∧
    (translate_with_model cfg send).attempts = cfg.max_retries + 1 ∧
    (translate_with_model cfg send).delays =
      (List.range' 1 cfg.max_retries).map (backoffDelay cfg) ∧
    (translate_with_model cfg send).result = .error (err cfg.max_retries) := by
  have hdel : ∀ (send2 : Nat → Except TranslationError TranslationResult),
      (translate_with_model cfg send2).delays =
        (List.range' 1 ((translate_with_model cfg send2).attempts - 1)).map
          (backoffDelay cfg) := by
    intro send2
    unfold translate_with_model
    rw [retryGo_delays, range'_filter_pos]
  have hmain := retryGo_allFail cfg send err hfail hretr cfg.max_retries 0
    (.InternalError "unreachable")
  refine ⟨?_, hdel, ?_, ?_, ?_, ?_⟩
  · intro send2
    unfold translate_with_model
    exact retryGo_attempts_le cfg send2 (cfg.max_retries + 1) 0 _
  · intro n h
    unfold backoffDelay
    exact Nat.mod_eq_of_lt h
  · exact hmain.1
  · rw [hdel send]
    unfold translate_with_model
    rw [hmain.1]
    simp
  · have := hmain.2
    unfold translate_with_model
    rw [this]
    simp

/-- Witness for C3: `max_retries = 2`, delay 1000 ms, a wire that always
fails with `NetworkError`: 3 attempts, backoffs 1000 and 2000 ms, and the
last error surfaces. -/
theorem c3_retry_bound_witness :
    (translate_with_model cfg2 (fun _ => .error (.NetworkError "down"))).attempts = 3 ∧
    (translate_with_model cfg2 (fun _ => .error (.NetworkError "down"))).delays =
      [1000, 2000] ∧
    (translate_with_model cfg2 (fun _ => .error (.NetworkError "down"))).result =
      .error (.NetworkError "down") := by
  have h := c3_retry_bound cfg2 (fun _ => .error (.NetworkError "down"))
    (fun _ => .NetworkError "down") (fun _ => rfl) (fun _ => rfl)
  refine ⟨h.2.2.2.1, ?_, h.2.2.2.2.2⟩
  rw [h.2.2.2.2.1]
  rfl

/-- C1 counterexample: in `cfgC` the Slow lane lists `modelA` then `modelB`;
`modelA`'s only attempt fails with `QuotaExceededError`, yet the orchestrator
goes on to attempt `modelB` (a later model in the same lane) and the caller
receives `modelB`'s success, not `QuotaExceeded`. -/
theorem c1_counterexample :
    sendC modelA 0 = .error .QuotaExceededError ∧
    (AsyncTranslator.translate cfgC usageC "init" ⟨0, 0⟩ sendC reqC).laneTraces.map
      (fun p => p.2.modelTrys.map Prod.fst) = [["model-a", "model-b"]] ∧
    (AsyncTranslator.translate cfgC usageC "init" ⟨0, 0⟩ sendC reqC).result =
      .ok resB := by
  refine ⟨rfl, ?_, ?_⟩ <;> decide

/-- C1 (amended): `QuotaExceeded` on a wire attempt aborts only that model's
retry loop — no further attempt on that model, and `QuotaExceeded` is the
error that model attempt reports — but the lane loop continues with the later
models of the lane exactly as for any other failure (so fallback still runs
and the caller does not necessarily receive `QuotaExceeded`). -/
theorem c1_quota_aborts_retry_only (cfg : TranslatorConfig)
    (send : Nat → Except TranslationError TranslationResult)
    (msend : Model → Nat → Except TranslationError TranslationResult)
    (lane : LaneType) (m : Model) (rest : List Model)
    (h0 : send 0 = .error .QuotaExceededError)
    (hmodels : cfg.get_models_by_lane lane = m :: rest)
    (hm : (translate_with_model cfg (msend m)).result = .error .QuotaExceededError) :
    (translate_with_model cfg send).attempts = 1 ∧
    (translate_with_model cfg send).result = .error .QuotaExceededError ∧
    (translate_with_lane cfg msend lane).modelTrys =
      (m.id, translate_with_model cfg (msend m)) ::
        (laneGo cfg msend lane rest).modelTrys ∧
    (translate_with_lane cfg msend lane).result =
      (laneGo cfg msend lane rest).result := by
  have hone : translate_with_model cfg send =
      { attempts := 1, delays := [], result := .error .QuotaExceededError } := by
    unfold translate_with_model
    rw [retryGo_succ, h0]
    simp [isQuotaExceeded]
  have hlane : translate_with_lane cfg msend lane =
      { modelTrys := (m.id, translate_with_model cfg (msend m)) ::
          (laneGo cfg msend lane rest).modelTrys
        result := (laneGo cfg msend lane rest).result } := by
    unfold translate_with_lane
    rw [hmodels]
    simp [laneGo, hm]
  exact ⟨by rw [hone], by rw [hone], by rw [hlane], by rw [hlane]⟩

/-- Witness for C1 (amended), at the counterexample's inputs. -/
theorem c1_quota_aborts_retry_only_witness :
    (translate_with_model cfgC (sendC modelA)).attempts = 1 ∧
    (translate_with_model cfgC (sendC modelA)).result = .error .QuotaExceededError ∧
    (translate_with_lane cfgC sendC LaneType.Slow).modelTrys =
      (modelA.id, translate_with_model cfgC (sendC modelA)) ::
        (laneGo cfgC sendC LaneType.Slow [modelB]).modelTrys ∧
    (translate_with_lane cfgC sendC LaneType.Slow).result =
      (laneGo cfgC sendC LaneType.Slow [modelB]).result := by
  exact c1_quota_aborts_retry_only cfgC (sendC modelA) sendC LaneType.Slow modelA
    [modelB] (by rfl) (by decide) (by decide)

/-- C8: the transport adapter classifies wire responses: 2xx without a
translation field → `InvalidResponse`; 429 → `RateLimited`; other non-2xx
with quota/limit markers in the body → `QuotaExceeded`; any remaining
non-2xx → `ApiError` with status and body. -/
theorem c8_classify (modelId : String) (status : Nat) (json : Json)
    (body : Except String Json) (bodyText : String) :
    ((200 ≤ status ∧ status ≤ 299) → extractTranslation json = none →
      classify_response modelId status (.ok json) bodyText =
        .error (.InvalidResponseError "No translation in response")) ∧
    (status = 429 →
      classify_response modelId status body bodyText =
        .error (.RateLimitError none)) ∧
    (¬(200 ≤ status ∧ status ≤ 299) → status ≠ 429 →
      (strContains bodyText "quota" || strContains bodyText "limit") = true →
      classify_response modelId status body bodyText =
        .error .QuotaExceededError) ∧
    (¬(200 ≤ status ∧ status ≤ 299) → status ≠ 429 →
      (strContains bodyText "quota" || strContains bodyText "limit") = false →
      classify_response modelId status body bodyText =
        .error (.ApiError status bodyText)) := by
  refine ⟨?_, ?_, ?_, ?_⟩
  · intro h2 htr
    simp [classify_response, h2, htr]
  · intro h429
    subst h429
    have hn : ¬(200 ≤ 429 ∧ 429 ≤ 299) := by omega
    simp [classify_response, hn]
  · intro h2 h429 hmark
    have hb : (status == 429) = false := by
      simpa using h429
    simp [classify_response, h2, hb, hmark]
  · intro h2 h429 hmark
    have hb : (status == 429) = false := by
      simpa using h429
    simp [classify_response, h2, hb, hmark]

/-- Witness for C8, one concrete response per classification branch. -/
theorem c8_classify_witness :
    classify_response "m" 200 (.ok .null) "" =
      .error (.InvalidResponseError "No translation in response") ∧
    classify_response "m" 429 (.error "parse") "" =
      .error (.RateLimitError none) ∧
    classify_response "m" 500 (.error "parse") "daily quota reached" =
      .error .QuotaExceededError ∧
    classify_response "m" 500 (.error "parse") "boom" =
      .error (.ApiError 500 "boom") := by
  refine ⟨?_, ?_, ?_, ?_⟩
  · exact (c8_classify "m" 200 Json.null (.ok .null) "").1 (by omega) (by rfl)
  · exact (c8_classify "m" 429 Json.null (.error "parse") "").2.1 rfl
  · exact (c8_classify "m" 500 Json.null (.error "parse")
      "daily quota reached").2.2.1 (by omega) (by omega) (by decide)
  · exact (c8_classify "m" 500 Json.null (.error "parse") "boom").2.2.2
      (by omega) (by omega) (by decide)

/-- C10: a 2xx payload with a translation but a missing (or non-`u64`)
`usage.total_tokens` still yields a successful result with
`tokens_used = 0`, and consuming 0 tokens leaves the quota state exactly at
its post-rollover value. -/
theorem c10_missing_usage (modelId : String) (status : Nat) (json : Json)
    (bodyText : String) (t : String)
    (h2 : 200 ≤ status ∧ status ≤ 299)
    (htr : extractTranslation json = some t)
    (htok : ((json.getField "usage").getField "total_tokens").as_u64 = none) :
    classify_response modelId status (.ok json) bodyText =
      .ok { translation := t
            detected_source_lang := extractDetected json
            tokens_used := 0
            model_used := modelId
            request_id := (json.getField "id").as_str } ∧
    (∀ (u : TokenUsage) (now : Timestamp),
      TokenTracker.use_tokens u 0 now = (u.reset_if_needed now, .ok ())) := by
  constructor
  · simp [classify_response, h2, htr, extractTokens, htok]
  · intro u now
    simp [TokenTracker.use_tokens, TokenUsage.use_tokens, TokenUsage.can_use]

/-- A 2xx body with a translation and no `usage` object at all. -/
def jsonC : Json :=
  .obj [("output", .obj [("choices", .arr
          [.obj [("message", .obj [("content", .str "hola")])]])]),
        ("id", .str "req-1")]

/-- Witness for C10 at `jsonC`. -/
theorem c10_missing_usage_witness :
    classify_response "model-a" 200 (.ok jsonC) "" =
      .ok { translation := "hola", detected_source_lang := none,
            tokens_used := 0, model_used := "model-a",
            request_id := some "req-1" } ∧
    TokenTracker.use_tokens usageC 0 ⟨0, 0⟩ = (usageC, .ok ()) := by
  have h := c10_missing_usage "model-a" 200 jsonC "" "hola" (by omega)
    (by decide) (by decide)
  constructor
  · rw [h.1]; decide
  · rw [h.2 usageC ⟨0, 0⟩]; decide
